import Mathlib

/-
  Verification of mcp-guard (a CORS-enforcing reverse proxy for MCP endpoints).

  Shallow embedding of:
    - src/proxy.js   : normalizePath, isHopByHopHeader, sanitizeRequestHeaders,
                       createSizeLimitStream, createProxyHandler (routing pipeline,
                       upstream forwarding event handlers)
    - src/config.js  : parseAllowedOrigins and its defaults
    - src/cors.js    : corsHeadersForOrigin (file absent from the repository snapshot;
                       modelled from the spec, see its doc comment)

  Header collections are modelled as association lists (String × String).
  Node lower-cases incoming request-header keys; the embedding keeps keys as
  given and applies the same case handling the source does.
-/

/-- A single HTTP header as a (name, value) pair. -/
abbrev Header := String × String

/-- Case-sensitive lookup of a header value, as JS property access on the
    (already lower-cased by Node) `req.headers` object. -/
def getHeader (hs : List Header) (name : String) : Option String :=
  (hs.find? (fun h => h.1 == name)).map (fun h => h.2)

/-- Modelled from the spec: src/cors.js (function corsHeadersForOrigin) is not in the
    repository snapshot; only its callers and tests are. Spec §4.1: given an origin
    string and the allowlist, return "allowed" with response headers
    (Access-Control-Allow-Origin echoing the exact input origin, Vary: Origin,
    allowed methods, allowed headers) only if the input origin exactly equals
    (scheme + host + port) an allowlist entry; otherwise return "denied".
    The auxiliary header values (methods / headers lists) are not fixed by the spec
    and are irrelevant to the claims; only the keys and the exact Access-Control-Allow-Origin
    echo matter. -/
def corsHeadersForOrigin (origin : String) (allowedOrigins : List String) : Option (List Header) :=
  if origin ∈ allowedOrigins then
    some [("Access-Control-Allow-Origin", origin),
          ("Vary", "Origin"),
          ("Access-Control-Allow-Methods", "POST, GET, DELETE, OPTIONS"),
          ("Access-Control-Allow-Headers", "Content-Type, Authorization, Mcp-Session-Id")]
  else
    none

/-- JS String.prototype.toLowerCase restricted to what header names use: per-character
    lower-casing. (All names this file compares against are ASCII.) -/
def jsToLower (s : String) : String :=
  String.mk (s.toList.map Char.toLower)

/-- Embeds the regex replace(/\/+$/, "") of src/proxy.js normalizePath:
    removes every trailing slash character. -/
def stripTrailingSlashes (s : String) : String :=
  String.mk ((s.toList.reverse.dropWhile (fun c => c = '/')).reverse)

/-- src/proxy.js normalizePath: strip query string and fragment (split("?")[0] and
    split("#")[0] keep exactly the characters before the first separator), collapse
    trailing slashes except for the root path. -/
def normalizePath (p : String) : String :=
  let noQuery := String.mk ((p.toList.takeWhile (fun c => c ≠ '?')).takeWhile (fun c => c ≠ '#'))
  let withoutTrailing := if noQuery ≠ "/" then stripTrailingSlashes noQuery else noQuery
  if withoutTrailing = "" then "/" else withoutTrailing

/-- src/proxy.js isHopByHopHeader. The source lower-cases its argument itself,
    so callers may pass the original key. -/
def isHopByHopHeader (name : String) : Bool :=
  let n := jsToLower name
  n == "connection" || n == "keep-alive" || n == "proxy-authenticate" ||
  n == "proxy-authorization" || n == "te" || n == "trailer" ||
  n == "transfer-encoding" || n == "upgrade"

/-- src/proxy.js sanitizeRequestHeaders: drop empty keys, Host (case-insensitively)
    and hop-by-hop headers; keep everything else unchanged. (The source passes the
    lower-cased key to isHopByHopHeader; since isHopByHopHeader lower-cases its own
    argument and toLowerCase is idempotent, passing the original key is equivalent.) -/
def sanitizeRequestHeaders (inHeaders : List Header) : List Header :=
  inHeaders.filter (fun h => !(h.1 == "") && !(jsToLower h.1 == "host") && !(isHopByHopHeader h.1))

/-- src/proxy.js createProxyHandler, response relay loop (for k,v of upstreamRes.headers):
    drop empty keys and hop-by-hop headers from the upstream response. Note the source
    does NOT drop Host here; only the request direction does. -/
def sanitizeResponseHeaders (hs : List Header) : List Header :=
  hs.filter (fun h => !(h.1 == "") && !(isHopByHopHeader h.1))

/-- Node's header-object write semantics (writeHead / setHeader and, upstreamwards,
    http.request's header handling): setting a header replaces any existing header
    with the same name case-insensitively; the new entry is appended. -/
def setHeader (hs : List Header) (k v : String) : List Header :=
  hs.filter (fun h => !(jsToLower h.1 == jsToLower k)) ++ [(k, v)]

/-- Folding setHeader over a list of additions (models Object.assign followed by
    writeHead, and the sequence of header assignments before http.request). -/
def setAllHeaders (hs : List Header) (adds : List Header) : List Header :=
  adds.foldl (fun acc kv => setHeader acc kv.1 kv.2) hs

/-- Per-request inbound data (src/proxy.js handler's view of req). Node has already
    lower-cased the keys of req.headers; url/method are Options because the handler
    checks req.url / req.method for absence. -/
structure Request where
  url : Option String
  method : Option String
  headers : List Header
  remoteAddress : Option String
deriving DecidableEq

/-- The configuration fields the handler reads (src/proxy.js line 266). Fields not
    consulted by any routing decision (port, upstreamUrl, upstreamTimeoutMs) are
    omitted; authBearerToken is Option String as produced by src/config.js
    (null or a non-empty trimmed string). -/
structure Config where
  mcpPath : String
  allowedOrigins : List String
  maxBodyBytes : Nat
  authBearerToken : Option String
deriving DecidableEq

/-- src/proxy.js: Number(req.headers["content-length"] ?? 0), in the finiteness
    test that follows. none stands for NaN (Number.isFinite false): a missing header
    gives Number(0) = 0, an empty string gives 0, a decimal digit string gives its
    value, and any other string is modelled as NaN. (JS Number() also accepts
    floats/hex, which Node never yields for a content-length header.) -/
def parseContentLength : Option String → Option Nat
  | none => some 0
  | some s =>
      if s = "" then some 0
      else if s.toList.all Char.isDigit then
        some (s.toList.foldl (fun acc c => acc * 10 + (c.toNat - '0'.toNat)) 0)
      else none

/-- src/proxy.js line 328: XFP value url.protocol without the colon; the URL is built
    against an http base from an origin-form request target, hence "http". -/
def xForwardedProto : String := "http"

/-- Outbound (to-upstream) header set: sanitizeRequestHeaders then the three
    X-Forwarded-* assignments (src/proxy.js lines 327-330). -/
def outboundHeaders (req : Request) : List Header :=
  setAllHeaders (sanitizeRequestHeaders req.headers)
    [("X-Forwarded-Proto", xForwardedProto),
     ("X-Forwarded-Host", (getHeader req.headers "host").getD ""),
     ("X-Forwarded-For", req.remoteAddress.getD "")]

/-- The outcome of the pre-forwarding pipeline of createProxyHandler: either an
    immediate response written by the handler itself (no upstream connection), or a
    forward with the header set handed to upstreamClient.request (an upstream
    connection is opened). -/
inductive RouteResult where
  | respond (status : Nat) (headers : List Header) (body : String)
  | forward (outHeaders : List Header)
deriving DecidableEq

/-- src/proxy.js line 297. -/
def MCP_METHODS : List String := ["POST", "GET", "DELETE"]

/-- The nosniff header every response carries. -/
def nosniffH : Header := ("X-Content-Type-Options", "nosniff")

/-- The plain-text content type used by all non-relayed error responses. -/
def plainCT : Header := ("Content-Type", "text/plain; charset=utf-8")

/-- src/proxy.js lines 317-330: content-length fast pre-check, then forward. -/
def sizeStage (cfg : Config) (req : Request) : RouteResult :=
  match parseContentLength (getHeader req.headers "content-length") with
  | some n =>
      if n > cfg.maxBodyBytes then
        RouteResult.respond 413 [plainCT, nosniffH] "Request too large"
      else
        RouteResult.forward (outboundHeaders req)
  | none => RouteResult.forward (outboundHeaders req)

/-- src/proxy.js lines 308-315: the optional bearer-token gate. JS truthiness of
    authBearerToken: active iff it is a non-empty string. -/
def authStage (cfg : Config) (req : Request) : RouteResult :=
  let tok := cfg.authBearerToken.getD ""
  if tok ≠ "" ∧ (getHeader req.headers "authorization").getD "" ≠ "Bearer " ++ tok then
    RouteResult.respond 401 [plainCT, nosniffH] "Unauthorized"
  else
    sizeStage cfg req

/-- src/proxy.js handler, lines 270-330: the full pre-forwarding decision pipeline
    (400 on missing url/method, health check, preflight, 404 routing, origin policy,
    auth gate, content-length pre-check, then forward). -/
def routeRequest (cfg : Config) (req : Request) : RouteResult :=
  match req.url, req.method with
  | some u, some m =>
      let path := normalizePath u
      if m = "GET" ∧ path = "/health" then
        RouteResult.respond 200
          [("Content-Type", "application/json; charset=utf-8"), nosniffH] "\x7b\"ok\":true\x7d"
      else
        let origin := (getHeader req.headers "origin").getD ""
        let cors := corsHeadersForOrigin origin cfg.allowedOrigins
        if m = "OPTIONS" ∧ path = cfg.mcpPath then
          match cors with
          | none => RouteResult.respond 403 [plainCT, nosniffH] "Origin not allowed"
          | some cs => RouteResult.respond 204 (cs ++ [nosniffH]) ""
        else if path ≠ cfg.mcpPath ∨ m ∉ MCP_METHODS then
          RouteResult.respond 404 [plainCT, nosniffH] "Not found"
        else if origin ≠ "" ∧ cors = none then
          RouteResult.respond 403 [plainCT, nosniffH] "Origin not allowed"
        else
          authStage cfg req
  | _, _ => RouteResult.respond 400 [plainCT, nosniffH] "Bad request"

/-- Total byte length of a chunk sequence (chunks are byte lists). -/
def totalLen (chunks : List (List Nat)) : Nat := (chunks.map List.length).sum

/-- The recursion of src/proxy.js createSizeLimitStream's transform callback:
    seen accumulates chunk lengths; the first chunk that pushes seen over maxBytes
    makes the transform call cb(err) with err.code = "BODY_TOO_LARGE" and forward
    nothing further; otherwise the chunk is passed through unchanged. -/
def sizeLimitGo (maxBytes : Nat) (seen : Nat) : List (List Nat) → List (List Nat) × Option String
  | [] => ([], none)
  | c :: rest =>
      let seen' := seen + c.length
      if seen' > maxBytes then
        ([], some "BODY_TOO_LARGE")
      else
        let r := sizeLimitGo maxBytes seen' rest
        (c :: r.1, r.2)

/-- src/proxy.js createSizeLimitStream, applied to a whole chunk sequence: the
    chunks forwarded downstream and the error (if any) the stream emits.
    The stream starts with seen = 0. -/
def createSizeLimitStream (maxBytes : Nat) (chunks : List (List Nat)) :
    List (List Nat) × Option String :=
  sizeLimitGo maxBytes 0 chunks

/-- Headers relayed to the client for an upstream response (src/proxy.js lines
    342-353): strip hop-by-hop headers, Object.assign the CORS decision headers
    (if any), then set X-Content-Type-Options: nosniff. -/
def relayHeaders (cors : Option (List Header)) (upstream : List Header) : List Header :=
  setAllHeaders (setAllHeaders (sanitizeResponseHeaders upstream) (cors.getD []))
    [("X-Content-Type-Options", "nosniff")]

/-- State of the client-facing response and the two connections during the
    forwarding phase of createProxyHandler. -/
structure FwdState where
  headersSent : Bool
  sentStatus : Option Nat
  sentHeaders : List Header
  clientDestroyed : Bool
  upstreamDestroyed : Bool
deriving DecidableEq

/-- External events the forwarding phase reacts to. limiterOverflow is the size
    guard's BODY_TOO_LARGE error (src/proxy.js line 377 destroys upstreamReq with
    it, which re-emits it as the request's error event); upstreamTimeout is the
    timeout event (line 358 destroys upstreamReq with a plain Error, likewise
    re-emitted as an error event); upstreamSocketError is a connection
    refused/reset/protocol error with its error code. -/
inductive FwdEvent where
  | upstreamResponded (status : Nat) (headers : List Header)
  | upstreamTimeout
  | upstreamSocketError (code : Option String)
  | limiterOverflow
  | clientClosed
deriving DecidableEq

/-- src/proxy.js lines 362-370, the upstreamReq error handler: if response headers
    were already sent, destroy the client connection; otherwise answer 413 for
    BODY_TOO_LARGE and 502 for anything else. -/
def errorRespond (st : FwdState) (code : Option String) : FwdState :=
  if st.headersSent then
    { st with clientDestroyed := true }
  else
    let s := if code = some "BODY_TOO_LARGE" then 413 else 502
    { st with headersSent := true, sentStatus := some s, sentHeaders := [plainCT, nosniffH] }

/-- One forwarding-phase step, combining the source's event handlers with Node's
    destroy semantics (destroy(err) re-emits err as an error event; destroy() with
    no argument emits none):
    - upstream response callback (lines 342-355): writeHead with the relayed headers;
    - timeout handler (lines 358-360): destroy upstreamReq with a codeless error,
      which the error handler then turns into 502 or a client destroy;
    - upstreamReq error (lines 362-370): errorRespond;
    - limiter error (line 377): destroy upstreamReq with BODY_TOO_LARGE, which the
      error handler turns into 413 or a client destroy;
    - client close (lines 372-374): destroy upstreamReq with no error (so no error
      event and no response follows from it). -/
def fwdStep (cors : Option (List Header)) (st : FwdState) : FwdEvent → FwdState
  | FwdEvent.upstreamResponded status hs =>
      { st with headersSent := true, sentStatus := some status,
                sentHeaders := relayHeaders cors hs }
  | FwdEvent.upstreamTimeout => errorRespond { st with upstreamDestroyed := true } none
  | FwdEvent.upstreamSocketError c => errorRespond st c
  | FwdEvent.limiterOverflow => errorRespond { st with upstreamDestroyed := true } (some "BODY_TOO_LARGE")
  | FwdEvent.clientClosed => { st with upstreamDestroyed := true }

/-- Initial forwarding state: nothing sent, both connections live. -/
def initFwd : FwdState :=
  { headersSent := false, sentStatus := none, sentHeaders := [],
    clientDestroyed := false, upstreamDestroyed := false }

/-- Whole-request outcome: the Bool records whether an upstream connection was
    opened (upstreamClient.request called, src/proxy.js line 332). A router-level
    rejection responds immediately and never reaches that call; a forward opens the
    connection and then processes forwarding-phase events. -/
def runRequest (cfg : Config) (req : Request) (events : List FwdEvent) : Bool × FwdState :=
  match routeRequest cfg req with
  | RouteResult.respond s hs _ =>
      (false, { initFwd with headersSent := true, sentStatus := some s, sentHeaders := hs })
  | RouteResult.forward _ =>
      let origin := (getHeader req.headers "origin").getD ""
      let cors := corsHeadersForOrigin origin cfg.allowedOrigins
      (true, events.foldl (fwdStep cors) initFwd)

/-- src/config.js line 3. -/
def DEFAULT_ALLOWED_ORIGINS : List String := ["https://chatgpt.com", "https://chat.openai.com"]

/-- JS Set.add on the insertion-ordered membership list. -/
def setAdd (l : List String) (x : String) : List String :=
  if x ∈ l then l else l ++ [x]

/-- src/config.js parseAllowedOrigins, the parts computation: String(raw ?? "")
    split on ",", trimmed, empties removed (filter(Boolean)). -/
def parseParts (raw : Option String) : List String :=
  (((raw.getD "").splitOn ",").map String.trim).filter (fun s => s ≠ "")

/-- src/config.js parseAllowedOrigins: start from the default origins and add the
    normalization of each comma-separated part, skipping parts whose normalization
    fails. normalizeOrigin (src/config.js lines 5-11) delegates to the host
    environment's WHATWG URL parser (new URL(x).origin, null on parse failure), so
    it is taken as a parameter here; every property proved below holds for every
    such parser. -/
def parseAllowedOrigins (normalizeOrigin : String → Option String) (raw : Option String) :
    List String :=
  (parseParts raw).foldl
    (fun set p =>
      match normalizeOrigin p with
      | some o => setAdd set o
      | none => set)
    DEFAULT_ALLOWED_ORIGINS

/-- The Access-Control-Allow-Origin value in an allow decision is the input origin. -/
lemma getHeader_corsAllow (origin : String) :
    getHeader [("Access-Control-Allow-Origin", origin),
               ("Vary", "Origin"),
               ("Access-Control-Allow-Methods", "POST, GET, DELETE, OPTIONS"),
               ("Access-Control-Allow-Headers", "Content-Type, Authorization, Mcp-Session-Id")]
      "Access-Control-Allow-Origin" = some origin := rfl

/-- C1: for every origin string and allowlist, the Origin Policy Evaluator returns an
    allow decision with an Access-Control-Allow-Origin header exactly equal to the
    input origin only if the input origin exactly equals an allowlist entry, and
    returns a deny decision otherwise; it never returns a wildcard (unless the literal
    string "*" were itself allowlisted) and never reflects an origin that is not in
    the allowlist. -/
theorem claim_c1_origin_policy (origin : String) (allowlist : List String) :
    (∀ hs, corsHeadersForOrigin origin allowlist = some hs →
       origin ∈ allowlist ∧ getHeader hs "Access-Control-Allow-Origin" = some origin) ∧
    (origin ∉ allowlist → corsHeadersForOrigin origin allowlist = none) ∧
    ("*" ∉ allowlist → ∀ hs, corsHeadersForOrigin origin allowlist = some hs →
       getHeader hs "Access-Control-Allow-Origin" ≠ some "*") := by
  by_cases hmem : origin ∈ allowlist
  · refine ⟨?_, ?_, ?_⟩
    · intro hs hsome
      rw [corsHeadersForOrigin, if_pos hmem] at hsome
      cases hsome
      exact ⟨hmem, getHeader_corsAllow origin⟩
    · intro h; exact absurd hmem h
    · intro hstar hs hsome heq
      rw [corsHeadersForOrigin, if_pos hmem] at hsome
      cases hsome
      rw [getHeader_corsAllow origin] at heq
      exact hstar (Option.some.inj heq ▸ hmem)
  · refine ⟨?_, ?_, ?_⟩
    · intro hs hsome
      rw [corsHeadersForOrigin, if_neg hmem] at hsome
      exact absurd hsome (by simp)
    · intro _
      rw [corsHeadersForOrigin, if_neg hmem]
    · intro _ hs hsome
      rw [corsHeadersForOrigin, if_neg hmem] at hsome
      exact absurd hsome (by simp)

/-- Witness for C1 at the allowlisted origin of the test suite. -/
theorem claim_c1_origin_policy_witness :
    (∀ hs, corsHeadersForOrigin "https://chatgpt.com" ["https://chatgpt.com"] = some hs →
       "https://chatgpt.com" ∈ ["https://chatgpt.com"] ∧
       getHeader hs "Access-Control-Allow-Origin" = some "https://chatgpt.com") ∧
    ("https://chatgpt.com" ∉ ["https://chatgpt.com"] →
       corsHeadersForOrigin "https://chatgpt.com" ["https://chatgpt.com"] = none) ∧
    ("*" ∉ ["https://chatgpt.com"] →
       ∀ hs, corsHeadersForOrigin "https://chatgpt.com" ["https://chatgpt.com"] = some hs →
         getHeader hs "Access-Control-Allow-Origin" ≠ some "*") :=
  claim_c1_origin_policy "https://chatgpt.com" ["https://chatgpt.com"]

/-- C2 counterexample: a POST to the proxy path from an allowlisted origin with no
    declared content length passes every router check, so the upstream connection is
    opened (first component true); the streaming size guard's overflow then aborts
    the transfer and the client is answered 413. The request was rejected as too
    large by streaming overflow, yet the upstream observed a connection attempt —
    contradicting the claim that such rejections are resolved before any upstream
    connection is opened. -/
theorem claim_c2_counterexample :
    (runRequest
        { mcpPath := "/mcp", allowedOrigins := ["https://chatgpt.com"],
          maxBodyBytes := 10, authBearerToken := none }
        { url := some "/mcp", method := some "POST",
          headers := [("origin", "https://chatgpt.com")], remoteAddress := some "203.0.113.7" }
        [FwdEvent.limiterOverflow]).1 = true ∧
    (runRequest
        { mcpPath := "/mcp", allowedOrigins := ["https://chatgpt.com"],
          maxBodyBytes := 10, authBearerToken := none }
        { url := some "/mcp", method := some "POST",
          headers := [("origin", "https://chatgpt.com")], remoteAddress := some "203.0.113.7" }
        [FwdEvent.limiterOverflow]).2.sentStatus = some 413 := by
  constructor <;> decide

/-- C2 amended: every rejection produced by the router itself (origin denied,
    unauthorized, route not found, malformed request, declared-length too large)
    is resolved before any upstream connection is opened, so the upstream observes
    zero connection attempts for those requests; a streaming-overflow rejection,
    by contrast, aborts the already-opened upstream request and answers 413 when
    response headers are unsent. -/
theorem claim_c2_amended (cfg : Config) (req : Request) (events : List FwdEvent)
    (s : Nat) (hs : List Header) (b : String) :
    (routeRequest cfg req = RouteResult.respond s hs b →
       (runRequest cfg req events).1 = false) ∧
    (∀ cors st, st.headersSent = false →
       (fwdStep cors st FwdEvent.limiterOverflow).sentStatus = some 413 ∧
       (fwdStep cors st FwdEvent.limiterOverflow).upstreamDestroyed = true) := by
  constructor
  · intro h
    simp [runRequest, h]
  · intro cors st hsent
    simp [fwdStep, errorRespond, hsent]

/-- Witness for C2 amended: an unauthorized request is answered 401 with the
    upstream-contacted flag false. -/
theorem claim_c2_amended_witness :
    (routeRequest
        { mcpPath := "/mcp", allowedOrigins := ["https://chatgpt.com"],
          maxBodyBytes := 10, authBearerToken := some "secret" }
        { url := some "/mcp", method := some "POST",
          headers := [("origin", "https://chatgpt.com")], remoteAddress := none } =
       RouteResult.respond 401 [plainCT, nosniffH] "Unauthorized" →
       (runRequest
          { mcpPath := "/mcp", allowedOrigins := ["https://chatgpt.com"],
            maxBodyBytes := 10, authBearerToken := some "secret" }
          { url := some "/mcp", method := some "POST",
            headers := [("origin", "https://chatgpt.com")], remoteAddress := none }
          []).1 = false) ∧
    (∀ cors st, st.headersSent = false →
       (fwdStep cors st FwdEvent.limiterOverflow).sentStatus = some 413 ∧
       (fwdStep cors st FwdEvent.limiterOverflow).upstreamDestroyed = true) :=
  claim_c2_amended
    { mcpPath := "/mcp", allowedOrigins := ["https://chatgpt.com"],
      maxBodyBytes := 10, authBearerToken := some "secret" }
    { url := some "/mcp", method := some "POST",
      headers := [("origin", "https://chatgpt.com")], remoteAddress := none }
    [] 401 [plainCT, nosniffH] "Unauthorized"

/-- C6: on an upstream timeout or upstream connection error, the client receives a
    502 response if and only if no response headers have been sent yet; otherwise
    the client connection is destroyed with no status change; a body-too-large
    error in the same position yields 413 instead of 502 when headers are unsent. -/
theorem claim_c6_upstream_failure (cors : Option (List Header)) (st : FwdState)
    (code : Option String) (hc : code ≠ some "BODY_TOO_LARGE") :
    (st.headersSent = false →
       (fwdStep cors st FwdEvent.upstreamTimeout).sentStatus = some 502 ∧
       (fwdStep cors st (FwdEvent.upstreamSocketError code)).sentStatus = some 502 ∧
       (fwdStep cors st FwdEvent.limiterOverflow).sentStatus = some 413) ∧
    (st.headersSent = true →
       (fwdStep cors st FwdEvent.upstreamTimeout).clientDestroyed = true ∧
       (fwdStep cors st FwdEvent.upstreamTimeout).sentStatus = st.sentStatus ∧
       (fwdStep cors st (FwdEvent.upstreamSocketError code)).clientDestroyed = true ∧
       (fwdStep cors st (FwdEvent.upstreamSocketError code)).sentStatus = st.sentStatus) := by
  constructor <;> intro h <;> simp [fwdStep, errorRespond, h, hc]

/-- Witness for C6 at the initial forwarding state and a connection-refused error. -/
theorem claim_c6_upstream_failure_witness :
    (initFwd.headersSent = false →
       (fwdStep none initFwd FwdEvent.upstreamTimeout).sentStatus = some 502 ∧
       (fwdStep none initFwd (FwdEvent.upstreamSocketError (some "ECONNREFUSED"))).sentStatus = some 502 ∧
       (fwdStep none initFwd FwdEvent.limiterOverflow).sentStatus = some 413) ∧
    (initFwd.headersSent = true →
       (fwdStep none initFwd FwdEvent.upstreamTimeout).clientDestroyed = true ∧
       (fwdStep none initFwd FwdEvent.upstreamTimeout).sentStatus = initFwd.sentStatus ∧
       (fwdStep none initFwd (FwdEvent.upstreamSocketError (some "ECONNREFUSED"))).clientDestroyed = true ∧
       (fwdStep none initFwd (FwdEvent.upstreamSocketError (some "ECONNREFUSED"))).sentStatus = initFwd.sentStatus) :=
  claim_c6_upstream_failure none initFwd (some "ECONNREFUSED") (by decide)

/-- C9: when the client connection closes, the paired upstream request is destroyed
    on that event and nothing else changes — in particular no response is written
    to the client by this handler (destroy() is called with no error, so no error
    event and no 502/413 write follows from it). -/
theorem claim_c9_client_close_teardown (cors : Option (List Header)) (st : FwdState) :
    fwdStep cors st FwdEvent.clientClosed = { st with upstreamDestroyed := true } := rfl

/-- Unfolding: a chunk that pushes the count over the maximum stops the stream. -/
lemma sizeLimitGo_cons_over {m seen : Nat} {c : List Nat} {rest : List (List Nat)}
    (h : seen + c.length > m) :
    sizeLimitGo m seen (c :: rest) = ([], some "BODY_TOO_LARGE") := by
  simp [sizeLimitGo, h]

/-- Unfolding: a chunk within the limit is forwarded and processing continues. -/
lemma sizeLimitGo_cons_ok {m seen : Nat} {c : List Nat} {rest : List (List Nat)}
    (h : ¬ seen + c.length > m) :
    sizeLimitGo m seen (c :: rest) =
      (c :: (sizeLimitGo m (seen + c.length) rest).1,
       (sizeLimitGo m (seen + c.length) rest).2) := by
  simp [sizeLimitGo, h]

/-- totalLen unfolding on cons. -/
lemma totalLen_cons (c : List Nat) (rest : List (List Nat)) :
    totalLen (c :: rest) = c.length + totalLen rest := by
  simp [totalLen]

/-- Behaviour of the size-limit transform from any accumulated count: the forwarded
    chunks are an unchanged initial segment of the input, the cumulative count never
    exceeds the maximum, the error is exactly the BODY_TOO_LARGE signal, emitted iff
    the input exceeds the maximum, and the chunk at which it is emitted (the first
    whose arrival pushes the count over the maximum) is not forwarded. -/
lemma sizeLimitGo_spec (m : Nat) (chunks : List (List Nat)) :
    ∀ (seen : Nat), seen ≤ m →
      (sizeLimitGo m seen chunks).1 = chunks.take (sizeLimitGo m seen chunks).1.length ∧
      seen + totalLen (sizeLimitGo m seen chunks).1 ≤ m ∧
      ((sizeLimitGo m seen chunks).2 = none ↔ seen + totalLen chunks ≤ m) ∧
      ((sizeLimitGo m seen chunks).2 ≠ none →
        (sizeLimitGo m seen chunks).2 = some "BODY_TOO_LARGE" ∧
        (sizeLimitGo m seen chunks).1.length < chunks.length ∧
        seen + totalLen (chunks.take ((sizeLimitGo m seen chunks).1.length + 1)) > m) := by
  induction chunks with
  | nil =>
      intro seen hseen
      simp [sizeLimitGo, totalLen]
      omega
  | cons c rest ih =>
      intro seen hseen
      by_cases hover : seen + c.length > m
      · rw [sizeLimitGo_cons_over hover]
        refine ⟨by simp, by simp [totalLen]; omega, ?_, ?_⟩
        · simp only [totalLen_cons]
          constructor
          · intro h; exact absurd h (by simp)
          · intro h; omega
        · intro _
          refine ⟨rfl, by simp, ?_⟩
          simp [totalLen_cons, totalLen]
          omega
      · have hseen' : seen + c.length ≤ m := by omega
        obtain ⟨ih1, ih2, ih3, ih4⟩ := ih (seen + c.length) hseen'
        rw [sizeLimitGo_cons_ok hover]
        refine ⟨?_, ?_, ?_, ?_⟩
        · simp only [List.length_cons, List.take_succ_cons]
          rw [← ih1]
        · simp only [totalLen_cons]
          omega
        · refine Iff.trans ih3 ?_
          simp only [totalLen_cons]
          omega
        · intro hne
          obtain ⟨he, hlt, hgt⟩ := ih4 hne
          refine ⟨he, by simpa using hlt, ?_⟩
          simp only [List.length_cons, List.take_succ_cons, totalLen_cons]
          omega

/-- C3: for every chunk sequence and configured maximum, the streaming size guard
    forwards each chunk unchanged (the output is an initial segment of the input)
    while the cumulative byte count stays at or below the maximum; at the first chunk
    whose arrival makes the count exceed the maximum it aborts with the distinguished
    BODY_TOO_LARGE error without forwarding that chunk (the forwarded segment is
    shorter than the input and already the next chunk overflows); the error is
    emitted exactly when the body exceeds the maximum. The transform consumes one
    chunk at a time and never aggregates the body (evident from sizeLimitGo's
    chunk-by-chunk recursion), and it never consults any declared content length
    (none is among its inputs). -/
theorem claim_c3_size_guard (m : Nat) (chunks : List (List Nat)) :
    (createSizeLimitStream m chunks).1 =
      chunks.take (createSizeLimitStream m chunks).1.length ∧
    totalLen (createSizeLimitStream m chunks).1 ≤ m ∧
    ((createSizeLimitStream m chunks).2 = none ↔ totalLen chunks ≤ m) ∧
    ((createSizeLimitStream m chunks).2 ≠ none →
      (createSizeLimitStream m chunks).2 = some "BODY_TOO_LARGE" ∧
      (createSizeLimitStream m chunks).1.length < chunks.length ∧
      totalLen (chunks.take ((createSizeLimitStream m chunks).1.length + 1)) > m) := by
  have h := sizeLimitGo_spec m chunks 0 (Nat.zero_le m)
  simpa [createSizeLimitStream] using h

/-- Witness for C3: maximum 3, chunks of sizes 2 and 3; the first chunk is forwarded
    unchanged, the second overflows and triggers BODY_TOO_LARGE without being
    forwarded. -/
theorem claim_c3_size_guard_witness :
    (createSizeLimitStream 3 [[7, 8], [9, 10, 11]]).1 =
      [[7, 8], [9, 10, 11]].take (createSizeLimitStream 3 [[7, 8], [9, 10, 11]]).1.length ∧
    totalLen (createSizeLimitStream 3 [[7, 8], [9, 10, 11]]).1 ≤ 3 ∧
    ((createSizeLimitStream 3 [[7, 8], [9, 10, 11]]).2 = none ↔
      totalLen [[7, 8], [9, 10, 11]] ≤ 3) ∧
    ((createSizeLimitStream 3 [[7, 8], [9, 10, 11]]).2 ≠ none →
      (createSizeLimitStream 3 [[7, 8], [9, 10, 11]]).2 = some "BODY_TOO_LARGE" ∧
      (createSizeLimitStream 3 [[7, 8], [9, 10, 11]]).1.length < [[7, 8], [9, 10, 11]].length ∧
      totalLen ([[7, 8], [9, 10, 11]].take
        ((createSizeLimitStream 3 [[7, 8], [9, 10, 11]]).1.length + 1)) > 3) :=
  claim_c3_size_guard 3 [[7, 8], [9, 10, 11]]

/-- Proxyable methods are never OPTIONS. -/
lemma mcp_method_ne_options {m : String} (h : m ∈ MCP_METHODS) : m ≠ "OPTIONS" := by
  intro heq
  subst heq
  exact absurd h (by decide)

/-- A request with the configured path, a proxyable method, and an Origin header
    that is absent or allowed passes the router's health, preflight, 404 and origin
    checks and reaches the auth gate. -/
lemma routeRequest_proxyable (cfg : Config) (req : Request) (u m : String)
    (hu : req.url = some u) (hm : req.method = some m)
    (hmm : m ∈ MCP_METHODS) (hp : normalizePath u = cfg.mcpPath)
    (hh : ¬ (m = "GET" ∧ cfg.mcpPath = "/health"))
    (ho : (getHeader req.headers "origin").getD "" = "" ∨
          corsHeadersForOrigin ((getHeader req.headers "origin").getD "")
            cfg.allowedOrigins ≠ none) :
    routeRequest cfg req = authStage cfg req := by
  have hopt : m ≠ "OPTIONS" := mcp_method_ne_options hmm
  have hneg1 : ¬ (m = "GET" ∧ normalizePath u = "/health") := by
    rintro ⟨h1, h2⟩
    exact hh ⟨h1, hp.symm.trans h2⟩
  have hneg2 : ¬ (m = "OPTIONS" ∧ normalizePath u = cfg.mcpPath) := by
    rintro ⟨h1, _⟩
    exact hopt h1
  have hneg3 : ¬ (normalizePath u ≠ cfg.mcpPath ∨ m ∉ MCP_METHODS) := by
    simp [hp, hmm]
  have hneg4 : ¬ ((getHeader req.headers "origin").getD "" ≠ "" ∧
      corsHeadersForOrigin ((getHeader req.headers "origin").getD "")
        cfg.allowedOrigins = none) := by
    rcases ho with ho | ho
    · rintro ⟨h1, _⟩; exact h1 ho
    · rintro ⟨_, h2⟩; exact ho h2
  simp only [routeRequest, hu, hm]
  rw [if_neg hneg1, if_neg hneg2, if_neg hneg3, if_neg hneg4]

/-- The size stage only ever responds 413; otherwise it forwards. -/
lemma sizeStage_respond_status (cfg : Config) (req : Request) (s : Nat)
    (hs : List Header) (b : String)
    (h : sizeStage cfg req = RouteResult.respond s hs b) : s = 413 := by
  unfold sizeStage at h
  split at h
  · split at h
    · cases h; rfl
    · cases h
  · cases h

/-- The auth gate only ever responds 401; otherwise it defers to the size stage. -/
lemma authStage_respond_status (cfg : Config) (req : Request) (s : Nat)
    (hs : List Header) (b : String)
    (h : authStage cfg req = RouteResult.respond s hs b) : s = 401 ∨ s = 413 := by
  simp only [authStage] at h
  split at h
  · cases h; exact Or.inl rfl
  · exact Or.inr (sizeStage_respond_status cfg req s hs b h)

/-- C4: with a bearer-token secret configured, a proxyable request (configured path,
    method in MCP_METHODS, Origin absent or allowed — i.e. one that reaches the auth
    gate) is answered 401 "Unauthorized", never reaching the Upstream Forwarder, if
    and only if its Authorization header is not exactly "Bearer " followed by the
    secret; with no secret configured, the gate is a no-op and the request falls
    through to the size stage unchanged. -/
theorem claim_c4_auth_gate (cfg : Config) (req : Request) (u m : String)
    (hu : req.url = some u) (hm : req.method = some m)
    (hmm : m ∈ MCP_METHODS) (hp : normalizePath u = cfg.mcpPath)
    (hh : ¬ (m = "GET" ∧ cfg.mcpPath = "/health"))
    (ho : (getHeader req.headers "origin").getD "" = "" ∨
          corsHeadersForOrigin ((getHeader req.headers "origin").getD "")
            cfg.allowedOrigins ≠ none) :
    (∀ tok, cfg.authBearerToken = some tok → tok ≠ "" →
       (((getHeader req.headers "authorization").getD "" ≠ "Bearer " ++ tok) ↔
          routeRequest cfg req =
            RouteResult.respond 401 [plainCT, nosniffH] "Unauthorized") ∧
       ((getHeader req.headers "authorization").getD "" ≠ "Bearer " ++ tok →
          ∀ ohs, routeRequest cfg req ≠ RouteResult.forward ohs)) ∧
    (cfg.authBearerToken = none → routeRequest cfg req = sizeStage cfg req) := by
  have hroute := routeRequest_proxyable cfg req u m hu hm hmm hp hh ho
  constructor
  · intro tok htok htokne
    have hgate : authStage cfg req =
        if tok ≠ "" ∧ (getHeader req.headers "authorization").getD "" ≠ "Bearer " ++ tok
        then RouteResult.respond 401 [plainCT, nosniffH] "Unauthorized"
        else sizeStage cfg req := by
      simp only [authStage, htok, Option.getD_some]
    constructor
    · constructor
      · intro hmis
        rw [hroute, hgate, if_pos ⟨htokne, hmis⟩]
      · intro h401
        by_contra hnm
        rw [hroute, hgate, if_neg (by intro hc; exact hc.2 hnm)] at h401
        have h413 := sizeStage_respond_status cfg req 401 _ _ h401
        exact absurd h413 (by decide)
    · intro hmis ohs
      rw [hroute, hgate, if_pos ⟨htokne, hmis⟩]
      intro hc
      cases hc
  · intro hnone
    rw [hroute]
    simp only [authStage, hnone, Option.getD_none]
    rw [if_neg (by intro hc; exact hc.1 rfl)]

/-- Witness for C4: proxy path /mcp, secret "secret", a POST request with no
    Authorization header and no Origin header. -/
theorem claim_c4_auth_gate_witness :
    (∀ tok,
       ({ mcpPath := "/mcp", allowedOrigins := [], maxBodyBytes := 100,
          authBearerToken := some "secret" } : Config).authBearerToken = some tok →
       tok ≠ "" →
       (((getHeader ([] : List Header) "authorization").getD "" ≠ "Bearer " ++ tok) ↔
          routeRequest
            { mcpPath := "/mcp", allowedOrigins := [], maxBodyBytes := 100,
              authBearerToken := some "secret" }
            { url := some "/mcp", method := some "POST", headers := [],
              remoteAddress := none } =
            RouteResult.respond 401 [plainCT, nosniffH] "Unauthorized") ∧
       ((getHeader ([] : List Header) "authorization").getD "" ≠ "Bearer " ++ tok →
          ∀ ohs, routeRequest
            { mcpPath := "/mcp", allowedOrigins := [], maxBodyBytes := 100,
              authBearerToken := some "secret" }
            { url := some "/mcp", method := some "POST", headers := [],
              remoteAddress := none } ≠ RouteResult.forward ohs)) ∧
    (({ mcpPath := "/mcp", allowedOrigins := [], maxBodyBytes := 100,
        authBearerToken := some "secret" } : Config).authBearerToken = none →
       routeRequest
         { mcpPath := "/mcp", allowedOrigins := [], maxBodyBytes := 100,
           authBearerToken := some "secret" }
         { url := some "/mcp", method := some "POST", headers := [],
           remoteAddress := none } =
         sizeStage
           { mcpPath := "/mcp", allowedOrigins := [], maxBodyBytes := 100,
             authBearerToken := some "secret" }
           { url := some "/mcp", method := some "POST", headers := [],
             remoteAddress := none }) :=
  claim_c4_auth_gate
    { mcpPath := "/mcp", allowedOrigins := [], maxBodyBytes := 100,
      authBearerToken := some "secret" }
    { url := some "/mcp", method := some "POST", headers := [], remoteAddress := none }
    "/mcp" "POST" rfl rfl (by decide) (by decide) (by decide) (by decide)

/-- C7: a proxyable request (configured path, method in MCP_METHODS) with no Origin
    header is not denied by the origin policy: it proceeds to the auth gate, and if
    the gate and the declared-length pre-check pass it is forwarded upstream; a 403
    is produced only when an Origin header is present and denied. -/
theorem claim_c7_missing_origin (cfg : Config) (req : Request) (u m : String)
    (hu : req.url = some u) (hm : req.method = some m)
    (hmm : m ∈ MCP_METHODS) (hp : normalizePath u = cfg.mcpPath)
    (hh : ¬ (m = "GET" ∧ cfg.mcpPath = "/health")) :
    ((getHeader req.headers "origin").getD "" = "" →
       routeRequest cfg req = authStage cfg req ∧
       (∀ s hs b, routeRequest cfg req = RouteResult.respond s hs b → s ≠ 403) ∧
       ((cfg.authBearerToken.getD "" = "" ∨
           (getHeader req.headers "authorization").getD "" =
             "Bearer " ++ cfg.authBearerToken.getD "") →
        (∀ n, parseContentLength (getHeader req.headers "content-length") = some n →
           n ≤ cfg.maxBodyBytes) →
        routeRequest cfg req = RouteResult.forward (outboundHeaders req))) ∧
    (∀ hs b, routeRequest cfg req = RouteResult.respond 403 hs b →
       (getHeader req.headers "origin").getD "" ≠ "" ∧
       corsHeadersForOrigin ((getHeader req.headers "origin").getD "")
         cfg.allowedOrigins = none) := by
  constructor
  · intro hempty
    have hroute := routeRequest_proxyable cfg req u m hu hm hmm hp hh (Or.inl hempty)
    refine ⟨hroute, ?_, ?_⟩
    · intro s hs b hresp
      rw [hroute] at hresp
      rcases authStage_respond_status cfg req s hs b hresp with h | h <;> subst h <;> decide
    · intro hauth hsize
      rw [hroute]
      have hgate : authStage cfg req = sizeStage cfg req := by
        simp only [authStage]
        rw [if_neg]
        rintro ⟨htokne, hmis⟩
        rcases hauth with h | h
        · exact htokne h
        · exact hmis h
      rw [hgate]
      unfold sizeStage
      cases hcl : parseContentLength (getHeader req.headers "content-length") with
      | none => rfl
      | some n =>
          dsimp only
          rw [if_neg]
          intro hgt
          exact absurd (hsize n hcl) (by omega)
  · intro hs b h403
    by_cases ho : (getHeader req.headers "origin").getD "" = "" ∨
        corsHeadersForOrigin ((getHeader req.headers "origin").getD "")
          cfg.allowedOrigins ≠ none
    · have hroute := routeRequest_proxyable cfg req u m hu hm hmm hp hh ho
      rw [hroute] at h403
      rcases authStage_respond_status cfg req 403 hs b h403 with h | h <;>
        exact absurd h (by decide)
    · rw [not_or, not_ne_iff] at ho
      exact ho

/-- Witness for C7: a POST to /mcp with no headers at all (in particular no Origin)
    and no auth configured is forwarded. -/
theorem claim_c7_missing_origin_witness :
    ((getHeader ([] : List Header) "origin").getD "" = "" →
       routeRequest
         { mcpPath := "/mcp", allowedOrigins := [], maxBodyBytes := 100,
           authBearerToken := none }
         { url := some "/mcp", method := some "POST", headers := [],
           remoteAddress := none } =
         authStage
           { mcpPath := "/mcp", allowedOrigins := [], maxBodyBytes := 100,
             authBearerToken := none }
           { url := some "/mcp", method := some "POST", headers := [],
             remoteAddress := none } ∧
       (∀ s hs b, routeRequest
           { mcpPath := "/mcp", allowedOrigins := [], maxBodyBytes := 100,
             authBearerToken := none }
           { url := some "/mcp", method := some "POST", headers := [],
             remoteAddress := none } = RouteResult.respond s hs b → s ≠ 403) ∧
       (("" = "" ∨ (getHeader ([] : List Header) "authorization").getD "" = "Bearer " ++ "") →
        (∀ n, parseContentLength (getHeader ([] : List Header) "content-length") = some n →
           n ≤ 100) →
        routeRequest
          { mcpPath := "/mcp", allowedOrigins := [], maxBodyBytes := 100,
            authBearerToken := none }
          { url := some "/mcp", method := some "POST", headers := [],
            remoteAddress := none } =
          RouteResult.forward (outboundHeaders
            { url := some "/mcp", method := some "POST", headers := [],
              remoteAddress := none }))) ∧
    (∀ hs b, routeRequest
        { mcpPath := "/mcp", allowedOrigins := [], maxBodyBytes := 100,
          authBearerToken := none }
        { url := some "/mcp", method := some "POST", headers := [],
          remoteAddress := none } = RouteResult.respond 403 hs b →
       (getHeader ([] : List Header) "origin").getD "" ≠ "" ∧
       corsHeadersForOrigin ((getHeader ([] : List Header) "origin").getD "")
         ([] : List String) = none) :=
  claim_c7_missing_origin
    { mcpPath := "/mcp", allowedOrigins := [], maxBodyBytes := 100,
      authBearerToken := none }
    { url := some "/mcp", method := some "POST", headers := [], remoteAddress := none }
    "/mcp" "POST" rfl rfl (by decide) (by decide) (by decide)

/-- Membership in a header set after one case-insensitive set: either an old entry
    whose name differs case-insensitively, or the new entry. -/
lemma mem_setHeader {hs : List Header} {k v : String} {x : Header} :
    x ∈ setHeader hs k v ↔ (x ∈ hs ∧ jsToLower x.1 ≠ jsToLower k) ∨ x = (k, v) := by
  simp [setHeader, List.mem_filter, List.mem_append]

/-- Every member of setAllHeaders comes from the base set or from the additions. -/
lemma mem_setAllHeaders_src {adds : List Header} :
    ∀ {hs : List Header} {x : Header}, x ∈ setAllHeaders hs adds → x ∈ hs ∨ x ∈ adds := by
  induction adds with
  | nil => intro hs x h; exact Or.inl h
  | cons a rest ih =>
      intro hs x h
      have h' : x ∈ setAllHeaders (setHeader hs a.1 a.2) rest := h
      rcases ih h' with h'' | h''
      · rcases mem_setHeader.mp h'' with ⟨hin, _⟩ | heq
        · exact Or.inl hin
        · exact Or.inr (by simp [heq])
      · exact Or.inr (List.mem_cons_of_mem a h'')

/-- A base entry whose name clashes with no addition survives setAllHeaders. -/
lemma mem_setAllHeaders_keep {adds : List Header} :
    ∀ {hs : List Header} {x : Header}, x ∈ hs →
      (∀ kv ∈ adds, jsToLower x.1 ≠ jsToLower kv.1) → x ∈ setAllHeaders hs adds := by
  induction adds with
  | nil => intro hs x h _; exact h
  | cons a rest ih =>
      intro hs x h hne
      show x ∈ setAllHeaders (setHeader hs a.1 a.2) rest
      apply ih
      · exact mem_setHeader.mpr (Or.inl ⟨h, hne a (by simp)⟩)
      · intro kv hkv; exact hne kv (List.mem_cons_of_mem a hkv)

/-- The relayed header set always carries the nosniff header (it is set last). -/
lemma nosniff_mem_relayHeaders (cors : Option (List Header)) (hs : List Header) :
    nosniffH ∈ relayHeaders cors hs := by
  rw [relayHeaders]
  show nosniffH ∈ setHeader _ "X-Content-Type-Options" "nosniff"
  exact mem_setHeader.mpr (Or.inr rfl)

/-- The error handler preserves the nosniff invariant on sent headers. -/
lemma errorRespond_nosniff (st : FwdState) (code : Option String)
    (h : st.headersSent = true → nosniffH ∈ st.sentHeaders) :
    (errorRespond st code).headersSent = true →
      nosniffH ∈ (errorRespond st code).sentHeaders := by
  unfold errorRespond
  by_cases hsent : st.headersSent = true
  · simp only [hsent, if_true]
    intro _
    exact h hsent
  · simp only [hsent, if_false, Bool.false_eq_true]
    intro _
    simp

/-- Every forwarding-phase step preserves the nosniff invariant. -/
lemma fwdStep_nosniff (cors : Option (List Header)) (st : FwdState) (e : FwdEvent)
    (h : st.headersSent = true → nosniffH ∈ st.sentHeaders) :
    (fwdStep cors st e).headersSent = true →
      nosniffH ∈ (fwdStep cors st e).sentHeaders := by
  cases e with
  | upstreamResponded s hs =>
      intro _
      exact nosniff_mem_relayHeaders cors hs
  | upstreamTimeout => exact errorRespond_nosniff _ none (by exact h)
  | upstreamSocketError c => exact errorRespond_nosniff _ c h
  | limiterOverflow => exact errorRespond_nosniff _ (some "BODY_TOO_LARGE") (by exact h)
  | clientClosed => exact h

/-- The nosniff invariant is preserved across any forwarding-phase event sequence. -/
lemma foldl_fwdStep_nosniff (cors : Option (List Header)) :
    ∀ (events : List FwdEvent) (st : FwdState),
      (st.headersSent = true → nosniffH ∈ st.sentHeaders) →
      ((events.foldl (fwdStep cors) st).headersSent = true →
        nosniffH ∈ (events.foldl (fwdStep cors) st).sentHeaders) := by
  intro events
  induction events with
  | nil => intro st h; exact h
  | cons e rest ih =>
      intro st h
      exact ih (fwdStep cors st e) (fwdStep_nosniff cors st e h)

/-- Every immediate response of the router carries the nosniff header. -/
lemma routeRequest_nosniff (cfg : Config) (req : Request) (s : Nat)
    (hs : List Header) (b : String)
    (h : routeRequest cfg req = RouteResult.respond s hs b) : nosniffH ∈ hs := by
  have hsize : ∀ s' hs' b', sizeStage cfg req = RouteResult.respond s' hs' b' →
      nosniffH ∈ hs' := by
    intro s' hs' b' h'
    unfold sizeStage at h'
    split at h'
    · split at h'
      · cases h'; simp
      · cases h'
    · cases h'
  have hauth : ∀ s' hs' b', authStage cfg req = RouteResult.respond s' hs' b' →
      nosniffH ∈ hs' := by
    intro s' hs' b' h'
    simp only [authStage] at h'
    split at h'
    · cases h'; simp
    · exact hsize s' hs' b' h'
  simp only [routeRequest] at h
  split at h
  · split at h
    · cases h; simp
    · split at h
      · split at h
        · cases h; simp
        · cases h; simp [nosniffH]
      · split at h
        · cases h; simp
        · split at h
          · cases h; simp
          · exact hauth s hs b h
  · cases h; simp

/-- C8: every response the system emits — the router's immediate responses (health,
    preflight allow and deny, 400, 401, 403, 404, 413) and every response written in
    the forwarding phase (relayed upstream responses, 502, streaming 413) — carries
    X-Content-Type-Options: nosniff. -/
theorem claim_c8_nosniff (cfg : Config) (req : Request) (events : List FwdEvent) :
    (runRequest cfg req events).2.headersSent = true →
    nosniffH ∈ (runRequest cfg req events).2.sentHeaders := by
  unfold runRequest
  split
  next s hs b heq =>
    intro _
    exact routeRequest_nosniff cfg req s hs b heq
  next ohs heq =>
    exact foldl_fwdStep_nosniff _ events initFwd (fun hcontra => absurd hcontra (by decide))

/-- Witness for C8: the health response carries nosniff. -/
theorem claim_c8_nosniff_witness :
    nosniffH ∈ (runRequest
      { mcpPath := "/mcp", allowedOrigins := [], maxBodyBytes := 100,
        authBearerToken := none }
      { url := some "/health", method := some "GET", headers := [],
        remoteAddress := none } []).2.sentHeaders :=
  claim_c8_nosniff
    { mcpPath := "/mcp", allowedOrigins := [], maxBodyBytes := 100,
      authBearerToken := none }
    { url := some "/health", method := some "GET", headers := [], remoteAddress := none }
    [] (by decide)

/-- Membership in the sanitized request-header set. -/
lemma mem_sanitizeRequestHeaders {hs : List Header} {x : Header} :
    x ∈ sanitizeRequestHeaders hs ↔
      x ∈ hs ∧ x.1 ≠ "" ∧ jsToLower x.1 ≠ "host" ∧ isHopByHopHeader x.1 = false := by
  simp [sanitizeRequestHeaders, List.mem_filter, and_assoc]

/-- Membership in the sanitized response-header set. -/
lemma mem_sanitizeResponseHeaders {hs : List Header} {x : Header} :
    x ∈ sanitizeResponseHeaders hs ↔
      x ∈ hs ∧ x.1 ≠ "" ∧ isHopByHopHeader x.1 = false := by
  simp [sanitizeResponseHeaders, List.mem_filter, and_assoc]

/-- The outbound header set, unfolded to its three metadata assignments. -/
lemma outboundHeaders_eq (req : Request) :
    outboundHeaders req =
      setHeader
        (setHeader
          (setHeader (sanitizeRequestHeaders req.headers)
            "X-Forwarded-Proto" xForwardedProto)
          "X-Forwarded-Host" ((getHeader req.headers "host").getD ""))
        "X-Forwarded-For" (req.remoteAddress.getD "") := rfl

/-- C5 counterexample: the upstream→client direction does not drop Host. An upstream
    response carrying a Host header has it relayed to the client verbatim: the
    response-side loop filters only the eight hop-by-hop names, and Host is not one
    of them — only the request direction (sanitizeRequestHeaders) drops Host. This
    contradicts the claim that Host is dropped in both relay directions. -/
theorem claim_c5_counterexample :
    ("Host", "upstream.internal") ∈ relayHeaders none [("Host", "upstream.internal")] := by
  decide

/-- C5 amended: in the inbound→outbound direction, Host and the eight hop-by-hop
    headers (Connection, Keep-Alive, Proxy-Authenticate, Proxy-Authorization, TE,
    Trailer, Transfer-Encoding, Upgrade) are dropped case-insensitively and every
    other header is passed through unchanged (unless it collides with the injected
    forwarding metadata, which always carries X-Forwarded-Proto, X-Forwarded-Host
    and X-Forwarded-For); in the upstream→client direction only the eight hop-by-hop
    headers are dropped case-insensitively — Host is NOT dropped there — and every
    other upstream header is relayed unchanged unless it collides with the CORS
    decision headers or X-Content-Type-Options, which are set last and override. -/
theorem claim_c5_amended (req : Request) (origin : String) (allow : List String)
    (upstream : List Header) :
    (∀ kv, kv ∈ outboundHeaders req →
       isHopByHopHeader kv.1 = false ∧ jsToLower kv.1 ≠ "host") ∧
    (∀ kv, kv ∈ req.headers → kv.1 ≠ "" → jsToLower kv.1 ≠ "host" →
       isHopByHopHeader kv.1 = false →
       jsToLower kv.1 ∉ ["x-forwarded-proto", "x-forwarded-host", "x-forwarded-for"] →
       kv ∈ outboundHeaders req) ∧
    (("X-Forwarded-Proto", xForwardedProto) ∈ outboundHeaders req ∧
     ("X-Forwarded-Host", (getHeader req.headers "host").getD "") ∈ outboundHeaders req ∧
     ("X-Forwarded-For", req.remoteAddress.getD "") ∈ outboundHeaders req) ∧
    (∀ kv, kv ∈ relayHeaders (corsHeadersForOrigin origin allow) upstream →
       isHopByHopHeader kv.1 = false) ∧
    (∀ kv, kv ∈ upstream → kv.1 ≠ "" → isHopByHopHeader kv.1 = false →
       jsToLower kv.1 ∉ ["access-control-allow-origin", "vary",
         "access-control-allow-methods", "access-control-allow-headers"] →
       jsToLower kv.1 ≠ "x-content-type-options" →
       kv ∈ relayHeaders (corsHeadersForOrigin origin allow) upstream) := by
  refine ⟨?_, ?_, ⟨?_, ?_, ?_⟩, ?_, ?_⟩
  · intro kv h
    rcases mem_setAllHeaders_src h with h | h
    · have hmem := mem_sanitizeRequestHeaders.mp h
      exact ⟨hmem.2.2.2, hmem.2.2.1⟩
    · simp only [List.mem_cons, List.not_mem_nil, or_false] at h
      rcases h with h | h | h <;> subst h
      · exact ⟨(by decide : isHopByHopHeader "X-Forwarded-Proto" = false),
               (by decide : jsToLower "X-Forwarded-Proto" ≠ "host")⟩
      · exact ⟨(by decide : isHopByHopHeader "X-Forwarded-Host" = false),
               (by decide : jsToLower "X-Forwarded-Host" ≠ "host")⟩
      · exact ⟨(by decide : isHopByHopHeader "X-Forwarded-For" = false),
               (by decide : jsToLower "X-Forwarded-For" ≠ "host")⟩
  · intro kv hin hne hhost hhop hxf
    apply mem_setAllHeaders_keep (mem_sanitizeRequestHeaders.mpr ⟨hin, hne, hhost, hhop⟩)
    intro a ha
    simp only [List.mem_cons, List.not_mem_nil, or_false] at ha
    simp only [List.mem_cons, List.not_mem_nil, or_false, not_or] at hxf
    rcases ha with ha | ha | ha <;> subst ha
    · intro hc
      exact hxf.1 (by
        rw [hc]
        exact (by decide : jsToLower "X-Forwarded-Proto" = "x-forwarded-proto"))
    · intro hc
      exact hxf.2.1 (by
        rw [hc]
        exact (by decide : jsToLower "X-Forwarded-Host" = "x-forwarded-host"))
    · intro hc
      exact hxf.2.2 (by
        rw [hc]
        exact (by decide : jsToLower "X-Forwarded-For" = "x-forwarded-for"))
  · rw [outboundHeaders_eq]
    refine mem_setHeader.mpr (Or.inl ⟨mem_setHeader.mpr (Or.inl ⟨?_,
      (by decide : jsToLower "X-Forwarded-Proto" ≠ jsToLower "X-Forwarded-Host")⟩),
      (by decide : jsToLower "X-Forwarded-Proto" ≠ jsToLower "X-Forwarded-For")⟩)
    exact mem_setHeader.mpr (Or.inr rfl)
  · rw [outboundHeaders_eq]
    exact mem_setHeader.mpr (Or.inl ⟨mem_setHeader.mpr (Or.inr rfl),
      (by decide : jsToLower "X-Forwarded-Host" ≠ jsToLower "X-Forwarded-For")⟩)
  · rw [outboundHeaders_eq]
    exact mem_setHeader.mpr (Or.inr rfl)
  · intro kv h
    rcases mem_setAllHeaders_src h with h | h
    · rcases mem_setAllHeaders_src h with h | h
      · exact (mem_sanitizeResponseHeaders.mp h).2.2
      · unfold corsHeadersForOrigin at h
        split at h
        · simp only [Option.getD_some, List.mem_cons, List.not_mem_nil, or_false] at h
          rcases h with h | h | h | h <;> subst h
          · exact (by decide : isHopByHopHeader "Access-Control-Allow-Origin" = false)
          · exact (by decide : isHopByHopHeader "Vary" = false)
          · exact (by decide : isHopByHopHeader "Access-Control-Allow-Methods" = false)
          · exact (by decide : isHopByHopHeader "Access-Control-Allow-Headers" = false)
        · simp at h
    · simp only [List.mem_cons, List.not_mem_nil, or_false] at h
      subst h
      exact (by decide : isHopByHopHeader "X-Content-Type-Options" = false)
  · intro kv hin hne hhop hcors hxcto
    apply mem_setAllHeaders_keep
    · apply mem_setAllHeaders_keep (mem_sanitizeResponseHeaders.mpr ⟨hin, hne, hhop⟩)
      intro a ha
      unfold corsHeadersForOrigin at ha
      split at ha
      · simp only [Option.getD_some, List.mem_cons, List.not_mem_nil, or_false] at ha
        simp only [List.mem_cons, List.not_mem_nil, or_false, not_or] at hcors
        rcases ha with ha | ha | ha | ha <;> subst ha
        · intro hc
          exact hcors.1 (by
            rw [hc]
            exact (by decide :
              jsToLower "Access-Control-Allow-Origin" = "access-control-allow-origin"))
        · intro hc
          exact hcors.2.1 (by
            rw [hc]
            exact (by decide : jsToLower "Vary" = "vary"))
        · intro hc
          exact hcors.2.2.1 (by
            rw [hc]
            exact (by decide :
              jsToLower "Access-Control-Allow-Methods" = "access-control-allow-methods"))
        · intro hc
          exact hcors.2.2.2 (by
            rw [hc]
            exact (by decide :
              jsToLower "Access-Control-Allow-Headers" = "access-control-allow-headers"))
      · simp at ha
    · intro a ha
      simp only [List.mem_cons, List.not_mem_nil, or_false] at ha
      subst ha
      intro hc
      exact hxcto (by
        rw [hc]
        exact (by decide : jsToLower "X-Content-Type-Options" = "x-content-type-options"))

/-- Witness for C5 amended at a concrete request and upstream response. -/
theorem claim_c5_amended_witness :
    (∀ kv, kv ∈ outboundHeaders
        { url := some "/mcp", method := some "POST", headers := [("x-a", "1")],
          remoteAddress := none } →
       isHopByHopHeader kv.1 = false ∧ jsToLower kv.1 ≠ "host") ∧
    (∀ kv, kv ∈ ([("x-a", "1")] : List Header) → kv.1 ≠ "" → jsToLower kv.1 ≠ "host" →
       isHopByHopHeader kv.1 = false →
       jsToLower kv.1 ∉ ["x-forwarded-proto", "x-forwarded-host", "x-forwarded-for"] →
       kv ∈ outboundHeaders
         { url := some "/mcp", method := some "POST", headers := [("x-a", "1")],
           remoteAddress := none }) ∧
    (("X-Forwarded-Proto", xForwardedProto) ∈ outboundHeaders
        { url := some "/mcp", method := some "POST", headers := [("x-a", "1")],
          remoteAddress := none } ∧
     ("X-Forwarded-Host", (getHeader ([("x-a", "1")] : List Header) "host").getD "") ∈
        outboundHeaders
          { url := some "/mcp", method := some "POST", headers := [("x-a", "1")],
            remoteAddress := none } ∧
     ("X-Forwarded-For", (none : Option String).getD "") ∈ outboundHeaders
        { url := some "/mcp", method := some "POST", headers := [("x-a", "1")],
          remoteAddress := none }) ∧
    (∀ kv, kv ∈ relayHeaders
        (corsHeadersForOrigin "https://chatgpt.com" ["https://chatgpt.com"])
        [("content-type", "application/json"), ("transfer-encoding", "chunked")] →
       isHopByHopHeader kv.1 = false) ∧
    (∀ kv, kv ∈ ([("content-type", "application/json"),
         ("transfer-encoding", "chunked")] : List Header) →
       kv.1 ≠ "" → isHopByHopHeader kv.1 = false →
       jsToLower kv.1 ∉ ["access-control-allow-origin", "vary",
         "access-control-allow-methods", "access-control-allow-headers"] →
       jsToLower kv.1 ≠ "x-content-type-options" →
       kv ∈ relayHeaders
         (corsHeadersForOrigin "https://chatgpt.com" ["https://chatgpt.com"])
         [("content-type", "application/json"), ("transfer-encoding", "chunked")]) :=
  claim_c5_amended
    { url := some "/mcp", method := some "POST", headers := [("x-a", "1")],
      remoteAddress := none }
    "https://chatgpt.com" ["https://chatgpt.com"]
    [("content-type", "application/json"), ("transfer-encoding", "chunked")]

/-- Set insertion preserves existing members. -/
lemma mem_setAdd_of_mem {l : List String} {x y : String} (h : x ∈ l) : x ∈ setAdd l y := by
  unfold setAdd
  split
  · exact h
  · exact List.mem_append_left _ h

/-- A member of an insertion is an old member or the inserted element. -/
lemma mem_setAdd {l : List String} {x y : String} (h : x ∈ setAdd l y) : x ∈ l ∨ x = y := by
  unfold setAdd at h
  split at h
  · exact Or.inl h
  · rcases List.mem_append.mp h with h | h
    · exact Or.inl h
    · exact Or.inr (by simpa using h)

/-- The origin-collecting fold preserves every element of its initial set. -/
lemma parseAllowedOrigins_fold_keeps (norm : String → Option String) :
    ∀ (ps : List String) (init : List String) (x : String), x ∈ init →
      x ∈ ps.foldl
        (fun set p => match norm p with | some o => setAdd set o | none => set) init := by
  intro ps
  induction ps with
  | nil => intro init x h; exact h
  | cons p rest ih =>
      intro init x h
      show x ∈ rest.foldl _ (match norm p with | some o => setAdd init o | none => init)
      apply ih
      cases norm p with
      | some o => exact mem_setAdd_of_mem h
      | none => exact h

/-- Every element produced by the origin-collecting fold is an initial element or
    the successful normalization of a processed part. -/
lemma parseAllowedOrigins_fold_src (norm : String → Option String) :
    ∀ (ps : List String) (init : List String) (x : String),
      x ∈ ps.foldl
        (fun set p => match norm p with | some o => setAdd set o | none => set) init →
      x ∈ init ∨ ∃ p, p ∈ ps ∧ norm p = some x := by
  intro ps
  induction ps with
  | nil => intro init x h; exact Or.inl h
  | cons p rest ih =>
      intro init x h
      have h' : x ∈ rest.foldl _
          (match norm p with | some o => setAdd init o | none => init) := h
      rcases ih _ x h' with h'' | ⟨q, hq, hnq⟩
      · cases hn : norm p with
        | some o =>
            rw [hn] at h''
            rcases mem_setAdd h'' with h3 | h3
            · exact Or.inl h3
            · exact Or.inr ⟨p, by simp, by rw [hn, h3]⟩
        | none =>
            rw [hn] at h''
            exact Or.inl h''
      · exact Or.inr ⟨q, List.mem_cons_of_mem p hq, hnq⟩

/-- C10: for every environment input and every URL-normalization primitive, the
    allowed-origins set produced by config loading contains the default origins
    https://chatgpt.com and https://chat.openai.com; ALLOWED_ORIGINS entries can only
    add origins (every member is a default or the successful normalization of a
    comma-separated entry), and entries whose normalization fails contribute
    nothing (they are silently dropped). -/
theorem claim_c10_default_origins (normalizeOrigin : String → Option String)
    (raw : Option String) :
    ("https://chatgpt.com" ∈ parseAllowedOrigins normalizeOrigin raw ∧
     "https://chat.openai.com" ∈ parseAllowedOrigins normalizeOrigin raw) ∧
    (∀ o, o ∈ parseAllowedOrigins normalizeOrigin raw →
       o ∈ DEFAULT_ALLOWED_ORIGINS ∨
       ∃ p, p ∈ parseParts raw ∧ normalizeOrigin p = some o) := by
  refine ⟨⟨?_, ?_⟩, ?_⟩
  · exact parseAllowedOrigins_fold_keeps normalizeOrigin (parseParts raw)
      DEFAULT_ALLOWED_ORIGINS _ (by simp [DEFAULT_ALLOWED_ORIGINS])
  · exact parseAllowedOrigins_fold_keeps normalizeOrigin (parseParts raw)
      DEFAULT_ALLOWED_ORIGINS _ (by simp [DEFAULT_ALLOWED_ORIGINS])
  · intro o h
    exact parseAllowedOrigins_fold_src normalizeOrigin (parseParts raw)
      DEFAULT_ALLOWED_ORIGINS o h

/-- Witness for C10: the parser that rejects everything still yields the defaults. -/
theorem claim_c10_default_origins_witness :
    ("https://chatgpt.com" ∈ parseAllowedOrigins (fun _ => none) (some "https://evil.example") ∧
     "https://chat.openai.com" ∈
       parseAllowedOrigins (fun _ => none) (some "https://evil.example")) ∧
    (∀ o, o ∈ parseAllowedOrigins (fun _ => none) (some "https://evil.example") →
       o ∈ DEFAULT_ALLOWED_ORIGINS ∨
       ∃ p, p ∈ parseParts (some "https://evil.example") ∧ (fun _ => none) p = some o) :=
  claim_c10_default_origins (fun _ => none) (some "https://evil.example")
